import Mathlib

/-!
Verification development for the whitenoise-cli orchestration layer.

The definitions below are a shallow embedding of the repository's Rust
source (src/relays.rs, src/groups.rs, src/cli_handler.rs, src/account.rs,
src/storage.rs, src/cli.rs).  The external messaging engine (the
`Whitenoise` singleton) is modelled as a record of oracle functions; every
engine call that can fail returns `Except String`.  Rust `&mut self`
methods become explicit state-passing functions returning the new state
together with the `Result` value.
-/

namespace WhitenoiseCli

/-- Public keys are carried in their hex form throughout the CLI layer
(`PublicKey.to_hex` in the source is the identity here). -/
abbrev PublicKey := String

/-- Relay roles, mirroring `whitenoise::RelayType` as used by the CLI
(`RelayType::{Nostr, Inbox, KeyPackage}`). -/
inductive RelayType where
  | Nostr
  | Inbox
  | KeyPackage
deriving DecidableEq

/-- Mirror of `RelayConfig` in src/relays.rs: three ordered lists of
relay-url strings. -/
structure RelayConfig where
  nostr_relays : List String
  inbox_relays : List String
  key_package_relays : List String
deriving DecidableEq

/-- Mirror of `impl Default for RelayConfig` in src/relays.rs. -/
def RelayConfig.default : RelayConfig :=
  { nostr_relays :=
      ["ws://localhost:10547", "wss://relay.damus.io", "wss://relay.primal.net",
       "wss://nos.lol", "wss://relay.nostr.net"]
    inbox_relays :=
      ["ws://localhost:10547", "wss://relay.damus.io", "wss://relay.primal.net",
       "wss://relay.nostr.net"]
    key_package_relays :=
      ["ws://localhost:10547", "wss://relay.damus.io", "wss://nos.lol",
       "wss://relay.nostr.net"] }

/-- Mirror of `RelayManager::get_relays_for_type` in src/relays.rs. -/
def get_relays_for_type (cfg : RelayConfig) (relay_type : RelayType) : List String :=
  match relay_type with
  | RelayType.Nostr => cfg.nostr_relays
  | RelayType.Inbox => cfg.inbox_relays
  | RelayType.KeyPackage => cfg.key_package_relays

/-- The `match relay_type { .. => self.config... = relays }` assignment used by
`update_relays` and `cleanup_unwanted_relays` in src/relays.rs. -/
def set_relays_for_type (cfg : RelayConfig) (relay_type : RelayType) (relays : List String) : RelayConfig :=
  match relay_type with
  | RelayType.Nostr => { cfg with nostr_relays := relays }
  | RelayType.Inbox => { cfg with inbox_relays := relays }
  | RelayType.KeyPackage => { cfg with key_package_relays := relays }

/-- Mirror of `RelayManager::all_relay_types` in src/relays.rs. -/
def all_relay_types : List RelayType :=
  [RelayType.Nostr, RelayType.Inbox, RelayType.KeyPackage]

/-- Splits a character list at the first occurrence of the literal
separator "://", returning the scheme part and the remainder. -/
def splitScheme : List Char → Option (List Char × List Char)
  | [] => none
  | c :: rest =>
    if List.isPrefixOf [':', '/', '/'] (c :: rest) then
      some ([], List.drop 3 (c :: rest))
    else
      match splitScheme rest with
      | some (sch, tail) => some (c :: sch, tail)
      | none => none

/-- Model of syntactic URL parsing as performed by the external URL
parsers the source calls (`url::Url::parse` and the engine's
`RelayUrl::parse`): the string must consist of a non-empty alphabetic
scheme, the separator "://", and a non-empty remainder. -/
def urlParseOk (s : String) : Bool :=
  match splitScheme s.toList with
  | some (sch, tail) => !sch.isEmpty && sch.all Char.isAlpha && !tail.isEmpty
  | none => false

/-- The websocket-scheme test used throughout src/relays.rs:
`relay_url.starts_with("ws://") || relay_url.starts_with("wss://")`. -/
def wsScheme (s : String) : Bool :=
  List.isPrefixOf "ws://".toList s.toList || List.isPrefixOf "wss://".toList s.toList

/-- A relay-url string admitted by the engine's `RelayUrl::parse`
(modelled): parses as a URL and uses a ws:// or wss:// scheme. -/
def valid_relay_url (s : String) : Bool :=
  urlParseOk s && wsScheme s

/-- Model of the engine's `RelayUrl::parse` used by
`RelayManager::update_relays` in src/relays.rs: accepts exactly the
ws://\wss:// URLs, errors otherwise. -/
def relayUrlParse (s : String) : Except String String :=
  if valid_relay_url s then Except.ok s else Except.error ("Invalid relay URL: " ++ s)

/-- Mirror of the `relays.iter().map(RelayUrl::parse).collect::<Result<Vec<_>,_>>()`
step of `update_relays`: parses in order, stopping at the first failure. -/
def collectRelayUrls : List String → Except String (List String)
  | [] => Except.ok []
  | u :: rest =>
    match relayUrlParse u with
    | Except.error e => Except.error e
    | Except.ok v =>
      match collectRelayUrls rest with
      | Except.error e => Except.error e
      | Except.ok vs => Except.ok (v :: vs)

/-- Mirror of `RelayManager::update_relays` in src/relays.rs: validates every
URL via `RelayUrl::parse`; on any failure returns the error without touching
the config; otherwise stores the input list in the slot for `relay_type`.
The `&mut self` receiver becomes explicit config-in, config-out passing. -/
def update_relays (cfg : RelayConfig) (relay_type : RelayType) (relays : List String) :
    RelayConfig × Except String Unit :=
  match collectRelayUrls relays with
  | Except.error e => (cfg, Except.error e)
  | Except.ok _ => (set_relays_for_type cfg relay_type relays, Except.ok ())

/-- Mirror of `RelayManager::test_relay_connection` in src/relays.rs: a pure
syntactic check; returns false if URL parsing fails, otherwise reports
whether the string starts with ws:// or wss://.  The source opens no
network connection (the function body only inspects the string). -/
def test_relay_connection (relay_url : String) : Bool :=
  if urlParseOk relay_url = false then false
  else wsScheme relay_url

/-- Mirror of `RelayManager::add_relay_to_type` in src/relays.rs. -/
def add_relay_to_type (cfg : RelayConfig) (relay_type : RelayType) (relay_url : String) :
    RelayConfig × Except String Unit :=
  if test_relay_connection relay_url = false then
    (cfg, Except.error "Invalid relay URL or connection failed")
  else
    let current_relays := get_relays_for_type cfg relay_type
    if relay_url ∈ current_relays then (cfg, Except.ok ())
    else update_relays cfg relay_type (current_relays ++ [relay_url])

/-- Mirror of `RelayManager::remove_relay_from_type` in src/relays.rs. -/
def remove_relay_from_type (cfg : RelayConfig) (relay_type : RelayType) (relay_url : String) :
    RelayConfig × Except String Unit :=
  let current_relays := (get_relays_for_type cfg relay_type).filter (fun url => url ≠ relay_url)
  update_relays cfg relay_type current_relays

/-- The fixed deny-list of `RelayManager::cleanup_unwanted_relays` in
src/relays.rs. -/
def unwanted_relays : List String :=
  ["wss://purplepag.es", "wss://relay.purplepag.es"]

/-- Mirror of `RelayManager::cleanup_unwanted_relays` in src/relays.rs: for
each of the three roles in order, filters out the deny-listed endpoints and
stores the filtered list; always returns Ok. -/
def cleanup_unwanted_relays (cfg : RelayConfig) : RelayConfig × Except String Unit :=
  (all_relay_types.foldl
    (fun c relay_type =>
      set_relays_for_type c relay_type
        ((get_relays_for_type c relay_type).filter
          (fun url => !(unwanted_relays.contains url))))
    cfg,
   Except.ok ())

/-- Group discriminant, mirroring `whitenoise::GroupType` as used in
src/groups.rs (`GroupType::DirectMessage` versus the multi-party kind). -/
inductive GroupType where
  | DirectMessage
  | MultiParty
deriving DecidableEq

/-- The fields of the engine's `Group` record that src/groups.rs reads on the
paths verified here; the group id (`mls_group_id`) is carried in its hex form. -/
structure Group where
  mls_group_id : String
  group_type : GroupType
deriving DecidableEq

/-- Mirror of `whitenoise::NostrGroupConfigData` as constructed in
src/groups.rs (image fields are always None there and are omitted). -/
structure NostrGroupConfigData where
  name : String
  description : String
  relays : List String
deriving DecidableEq

/-- The fields of the engine's `Account` record that the verified paths
read: the public key and the cached general (nip65) relay list. -/
structure Account where
  pubkey : PublicKey
  nip65_relays : List String
deriving DecidableEq

/-- Mirror of `ChatMessage` as projected by `MessageData::from_chat_message`
in src/groups.rs. -/
structure ChatMessage where
  id : String
  pubkey : String
  content : String
  created_at : Nat
  kind : Nat
deriving DecidableEq

/-- The external engine (`whitenoise::Whitenoise` singleton), modelled as a
record of the oracle operations the verified code paths invoke.  Each
fallible engine call returns `Except String`. -/
structure Whitenoise where
  fetch_groups : Account → Except String (List Group)
  fetch_group_members : Account → String → Except String (List PublicKey)
  fetch_relays_from : List String → PublicKey → RelayType → Except String (List String)
  create_group : Account → List PublicKey → List PublicKey → NostrGroupConfigData →
    Except String Group
  fetch_aggregated_messages_for_group : Account → String → Except String (List ChatMessage)
  create_identity : Except String Account
  login : String → Except String Account
  get_account : PublicKey → Except String Account
  fix_account_empty_relays : Account → Except String (Account × Bool)

/-- The member-scan loop of `GroupManager::find_dm_group` in src/groups.rs:
walks the engine-returned groups in order; for each DirectMessage group
fetches its member list and returns the first whose member list has exactly
two entries containing both the account and the recipient. -/
def find_dm_group_scan (w : Whitenoise) (account : Account) (recipient : PublicKey) :
    List Group → Except String (Option String)
  | [] => Except.ok none
  | g :: rest =>
    if g.group_type = GroupType.DirectMessage then
      match w.fetch_group_members account g.mls_group_id with
      | Except.error e => Except.error ("Failed to fetch group members: " ++ e)
      | Except.ok member_pubkeys =>
        if member_pubkeys.length = 2 ∧ account.pubkey ∈ member_pubkeys ∧
            recipient ∈ member_pubkeys then
          Except.ok (some g.mls_group_id)
        else find_dm_group_scan w account recipient rest
    else find_dm_group_scan w account recipient rest

/-- Mirror of `GroupManager::find_dm_group` in src/groups.rs. -/
def find_dm_group (w : Whitenoise) (account : Account) (recipient : PublicKey) :
    Except String (Option String) :=
  match w.fetch_groups account with
  | Except.error e => Except.error ("Failed to fetch groups: " ++ e)
  | Except.ok groups => find_dm_group_scan w account recipient groups

/-- Mirror of `GroupManager::get_or_create_dm_group` in src/groups.rs: first
looks for an existing DM group; otherwise sources the relay list from the
account's cached nip65 list (network fetch only when that cache is empty),
builds the group config with a name derived from the first 8 hex characters
of the recipient's key, and asks the engine to create the group with member
list [recipient] and admin list [creator, recipient]. -/
def get_or_create_dm_group (w : Whitenoise) (account : Account) (recipient : PublicKey) :
    Except String String :=
  match find_dm_group w account recipient with
  | Except.error e => Except.error e
  | Except.ok (some group_id) => Except.ok group_id
  | Except.ok none =>
    let nostr_relays_result : Except String (List String) :=
      if account.nip65_relays.isEmpty then
        match w.fetch_relays_from account.nip65_relays account.pubkey RelayType.Nostr with
        | Except.error e => Except.error ("Failed to fetch relays: " ++ e)
        | Except.ok rs => Except.ok rs
      else Except.ok account.nip65_relays
    match nostr_relays_result with
    | Except.error e => Except.error e
    | Except.ok nostr_relays =>
      let group_config : NostrGroupConfigData :=
        { name := "DM with " ++ recipient.take 8
          description := "Direct message conversation"
          relays := nostr_relays }
      match w.create_group account [recipient] [account.pubkey, recipient] group_config with
      | Except.error e => Except.error ("Failed to create DM group: " ++ e)
      | Except.ok group => Except.ok group.mls_group_id

/-- The message-window step of `MessageCommands::List` handling in
src/cli_handler.rs: `messages.iter().rev().take(limit).rev()`. -/
def limit_messages (messages : List ChatMessage) (limit : Nat) : List ChatMessage :=
  ((messages.reverse.take limit)).reverse

/-- The history path of `handle_message_command` (`MessageCommands::List`) in
src/cli_handler.rs: fetches the full aggregated message list from the engine
and windows it to the last `limit` entries. -/
def fetch_history (w : Whitenoise) (account : Account) (group_id : String) (limit : Nat) :
    Except String (List ChatMessage) :=
  match w.fetch_aggregated_messages_for_group account group_id with
  | Except.error e => Except.error e
  | Except.ok messages => Except.ok (limit_messages messages limit)

/-- Mirror of the `BatchCommand` enum in src/cli.rs. -/
inductive BatchCommand where
  | AccountCreate (name : Option String) (about : Option String)
  | ContactAdd (pubkey : String) (name : String)
  | GroupCreate (name : String) (description : Option String) (members : Option (List String))
  | MessageSend (group_id : String) (message : String) (kind : Option Nat)
  | MessageDm (recipient : String) (message : String)
  | RelayAdd (url : String) (relay_type : String)
deriving DecidableEq

/-- The per-item result JSON built by `execute_batch_operation` in
src/cli_handler.rs: either success:true with the handler's output, or
success:false with the error message. -/
structure BatchItemResult where
  success : Bool
  output : Option String
  error : Option String
deriving DecidableEq

/-- Mirror of the `CommandResult` envelope in src/cli.rs (the timestamp
field carries no verified content and is omitted). -/
structure CommandResult (α : Type) where
  success : Bool
  data : Option α
  error : Option String

/-- Mirror of `CommandResult::success` in src/cli.rs. -/
def CommandResult.mkSuccess {α : Type} (data : α) : CommandResult α :=
  { success := true, data := some data, error := none }

/-- Mirror of `CommandResult::error` in src/cli.rs. -/
def CommandResult.mkError {α : Type} (e : String) : CommandResult α :=
  { success := false, data := none, error := some e }

/-- Mirror of `CliHandler::execute_batch_operation` in src/cli_handler.rs.
The dispatch of each `BatchCommand` variant to the corresponding
`handle_*_command` call (a stateful, engine-effectful computation returning
`Result<String>`) is abstracted as the `dispatch` parameter; the wrapper
captures its outcome into a per-item success/error record and never
propagates a failure. -/
def execute_batch_operation {σ : Type} (dispatch : σ → BatchCommand → σ × Except String String)
    (s : σ) (operation : BatchCommand) : σ × BatchItemResult :=
  match dispatch s operation with
  | (s2, Except.ok output) => (s2, { success := true, output := some output, error := none })
  | (s2, Except.error e) => (s2, { success := false, output := none, error := some e })

/-- The execution loop of `CliHandler::handle_batch_command` in
src/cli_handler.rs: runs the operations strictly one at a time in input
order, appending each captured result to the output vector. -/
def run_batch {σ : Type} (dispatch : σ → BatchCommand → σ × Except String String) :
    σ → List BatchCommand → σ × List BatchItemResult
  | s, [] => (s, [])
  | s, operation :: rest =>
    let p := execute_batch_operation dispatch s operation
    let q := run_batch dispatch p.1 rest
    (q.1, p.2 :: q.2)

/-- Mirror of `CliHandler::handle_batch_command` in src/cli_handler.rs after
file IO: `parsed` is the outcome of reading and JSON-parsing the batch file
(an error for a missing, non-JSON, or malformed file).  On parse success the
operations are run and the top-level envelope is built with
`CommandResult::success`, carrying the per-item results. -/
def handle_batch_command {σ : Type} (dispatch : σ → BatchCommand → σ × Except String String)
    (s : σ) (parsed : Except String (List BatchCommand)) :
    σ × Except String (CommandResult (List BatchItemResult)) :=
  match parsed with
  | Except.error e => (s, Except.error e)
  | Except.ok operations =>
    let q := run_batch dispatch s operations
    (q.1, Except.ok (CommandResult.mkSuccess q.2))

/-- The exit behaviour of `CliHandler::handle_command` in src/cli_handler.rs:
an Ok result prints and returns (process exit status 0); an Err prints the
error envelope and calls `std::process::exit(1)`. -/
def exit_code_of {α : Type} : Except String α → Nat
  | Except.ok _ => 0
  | Except.error _ => 1

/-- Mirror of the persisted state handled by `Storage` in src/storage.rs
that the account-session claims touch: the active-account pointer file
(`current_account_pubkey.txt`), absent or holding one pubkey-hex string. -/
structure StorageState where
  current_account_pubkey : Option String
deriving DecidableEq

/-- Mirror of `Storage::save_current_account_pubkey` in src/storage.rs. -/
def save_current_account_pubkey (_st : StorageState) (pubkey : String) : StorageState :=
  { current_account_pubkey := some pubkey }

/-- Mirror of `Storage::load_current_account_pubkey` in src/storage.rs. -/
def load_current_account_pubkey (st : StorageState) : Option String :=
  st.current_account_pubkey

/-- Mirror of `Storage::clear_current_account` in src/storage.rs. -/
def clear_current_account (_st : StorageState) : StorageState :=
  { current_account_pubkey := none }

/-- Mirror of the `AccountManager` state in src/account.rs: the in-memory
active account together with its storage handle. -/
structure AccountManager where
  current_account : Option Account
  storage : StorageState

/-- Mirror of `AccountManager::create_identity` in src/account.rs: asks the
engine for a fresh identity and, on success, sets it as the in-memory
current account.  The storage handle is not touched on this path. -/
def create_identity (w : Whitenoise) (m : AccountManager) :
    AccountManager × Except String Account :=
  match w.create_identity with
  | Except.error e => (m, Except.error ("Failed to create identity: " ++ e))
  | Except.ok account => ({ m with current_account := some account }, Except.ok account)

/-- Mirror of `AccountManager::login` in src/account.rs: exchanges the
credential for an account via the engine, applies the advisory
`fix_account_empty_relays` repair (its failure is swallowed), sets the
account active, and persists the active-account pointer. -/
def login (w : Whitenoise) (m : AccountManager) (nsec_or_hex_privkey : String) :
    AccountManager × Except String Account :=
  match w.login nsec_or_hex_privkey with
  | Except.error e => (m, Except.error ("Failed to login: " ++ e))
  | Except.ok account0 =>
    let account :=
      match w.fix_account_empty_relays account0 with
      | Except.ok (a, _) => a
      | Except.error _ => account0
    ({ current_account := some account
       storage := save_current_account_pubkey m.storage account.pubkey },
     Except.ok account)

/-- Mirror of `AccountManager::auto_login_by_pubkey` in src/account.rs:
loads the account for the pointer pubkey from the engine (parse failure is
folded into the engine lookup failure), applies the advisory relay repair,
and marks the account active; lookup failure leaves the state unchanged. -/
def auto_login_by_pubkey (w : Whitenoise) (m : AccountManager) (pubkey : String) :
    AccountManager × Except String Unit :=
  match w.get_account pubkey with
  | Except.error _ => (m, Except.error ("Account not found for pubkey: " ++ pubkey))
  | Except.ok account0 =>
    let account :=
      match w.fix_account_empty_relays account0 with
      | Except.ok (a, _) => a
      | Except.error _ => account0
    ({ m with current_account := some account }, Except.ok ())

/-- Mirror of `AccountManager::new` in src/account.rs: starts with no active
account, then attempts the best-effort auto-resume from the persisted
pointer, swallowing any failure. -/
def account_manager_new (w : Whitenoise) (stor : StorageState) : AccountManager :=
  let m0 : AccountManager := { current_account := none, storage := stor }
  match load_current_account_pubkey stor with
  | none => m0
  | some pubkey => (auto_login_by_pubkey w m0 pubkey).1

/-! ## Helper lemmas -/

theorem test_relay_connection_eq_valid (url : String) :
    test_relay_connection url = valid_relay_url url := by
  unfold test_relay_connection valid_relay_url
  cases h : urlParseOk url <;> simp [h]

theorem get_set_relays_same (cfg : RelayConfig) (relay_type : RelayType) (urls : List String) :
    get_relays_for_type (set_relays_for_type cfg relay_type urls) relay_type = urls := by
  cases relay_type <;> rfl

theorem get_set_relays_other (cfg : RelayConfig) (rt rt2 : RelayType) (urls : List String)
    (h : rt2 ≠ rt) :
    get_relays_for_type (set_relays_for_type cfg rt urls) rt2 = get_relays_for_type cfg rt2 := by
  cases rt <;> cases rt2 <;> first
    | rfl
    | exact absurd rfl h

theorem collect_relay_urls_ok (urls : List String)
    (h : ∀ u ∈ urls, valid_relay_url u = true) :
    collectRelayUrls urls = Except.ok urls := by
  induction urls with
  | nil => rfl
  | cons u rest ih =>
    have hu : valid_relay_url u = true := h u (List.mem_cons_self u rest)
    have hrest : collectRelayUrls rest = Except.ok rest :=
      ih (fun v hv => h v (List.mem_cons_of_mem u hv))
    simp [collectRelayUrls, relayUrlParse, hu, hrest]

theorem collect_relay_urls_err (urls : List String) (u : String)
    (hu : u ∈ urls) (hv : valid_relay_url u = false) :
    ∃ e, collectRelayUrls urls = Except.error e := by
  induction urls with
  | nil => exact absurd hu (List.not_mem_nil u)
  | cons v rest ih =>
    by_cases hvv : valid_relay_url v = true
    · rcases List.mem_cons.mp hu with h1 | h2
      · subst h1
        exact absurd hvv (by simp [hv])
      · rcases ih h2 with ⟨e, he⟩
        exact ⟨e, by simp [collectRelayUrls, relayUrlParse, hvv, he]⟩
    · refine ⟨"Invalid relay URL: " ++ v, ?_⟩
      simp [collectRelayUrls, relayUrlParse, hvv]

theorem update_relays_ok (cfg : RelayConfig) (relay_type : RelayType) (urls : List String)
    (h : ∀ u ∈ urls, valid_relay_url u = true) :
    update_relays cfg relay_type urls = (set_relays_for_type cfg relay_type urls, Except.ok ()) := by
  unfold update_relays
  rw [collect_relay_urls_ok urls h]

theorem update_relays_err (cfg : RelayConfig) (relay_type : RelayType) (urls : List String)
    (u : String) (hu : u ∈ urls) (hv : valid_relay_url u = false) :
    (update_relays cfg relay_type urls).1 = cfg ∧
      ∃ e, (update_relays cfg relay_type urls).2 = Except.error e := by
  rcases collect_relay_urls_err urls u hu hv with ⟨e, he⟩
  unfold update_relays
  rw [he]
  exact ⟨rfl, e, rfl⟩

/-! ## Claim theorems for the relay orchestrator -/

/-- Claim C5: `update_relays` validates every URL in the input list (each
must parse as a URL with a ws:// or wss:// scheme); if any entry is invalid
the call fails and the cached relay list for the role is left completely
unchanged; only when every entry is valid is the cache entry for that role
replaced by the input list, other roles staying untouched. -/
theorem update_relays_validates_and_is_atomic (cfg : RelayConfig) (relay_type : RelayType)
    (urls : List String) :
    ((∀ u ∈ urls, valid_relay_url u = true) →
      update_relays cfg relay_type urls = (set_relays_for_type cfg relay_type urls, Except.ok ()) ∧
      get_relays_for_type (update_relays cfg relay_type urls).1 relay_type = urls)
    ∧ ((∃ u ∈ urls, valid_relay_url u = false) →
      (update_relays cfg relay_type urls).1 = cfg ∧
        ∃ e, (update_relays cfg relay_type urls).2 = Except.error e)
    ∧ (∀ rt2, rt2 ≠ relay_type →
        get_relays_for_type (update_relays cfg relay_type urls).1 rt2 =
          get_relays_for_type cfg rt2) := by
  refine ⟨?_, ?_, ?_⟩
  · intro h
    have heq := update_relays_ok cfg relay_type urls h
    exact ⟨heq, by rw [heq]; exact get_set_relays_same cfg relay_type urls⟩
  · rintro ⟨u, hu, hv⟩
    exact update_relays_err cfg relay_type urls u hu hv
  · intro rt2 hne
    unfold update_relays
    cases hc : collectRelayUrls urls with
    | error e => rfl
    | ok vs => exact get_set_relays_other cfg relay_type rt2 urls hne

/-- Witness for C5: a concrete valid reconcile replaces the Nostr role list. -/
theorem update_relays_validates_and_is_atomic_witness :
    update_relays RelayConfig.default RelayType.Nostr ["wss://relay.example.com"] =
      (set_relays_for_type RelayConfig.default RelayType.Nostr ["wss://relay.example.com"],
       Except.ok ()) :=
  ((update_relays_validates_and_is_atomic RelayConfig.default RelayType.Nostr
    ["wss://relay.example.com"]).1 (by decide)).1

/-- Claim C6: `add_relay_to_type` is idempotent: a URL already present in
the role's cached list makes the call a no-op leaving the config unchanged
(and a success when the URL is valid), and running the add twice in
sequence leaves the cached config exactly as after the first call. -/
theorem add_relay_to_type_idempotent (cfg : RelayConfig) (relay_type : RelayType) (url : String) :
    (url ∈ get_relays_for_type cfg relay_type → (add_relay_to_type cfg relay_type url).1 = cfg)
    ∧ (test_relay_connection url = true → url ∈ get_relays_for_type cfg relay_type →
        add_relay_to_type cfg relay_type url = (cfg, Except.ok ()))
    ∧ (add_relay_to_type (add_relay_to_type cfg relay_type url).1 relay_type url).1 =
        (add_relay_to_type cfg relay_type url).1 := by
  refine ⟨?_, ?_, ?_⟩
  · intro hmem
    unfold add_relay_to_type
    cases ht : test_relay_connection url with
    | false => simp [ht]
    | true => simp [ht, hmem]
  · intro ht hmem
    unfold add_relay_to_type
    simp [ht, hmem]
  · cases ht : test_relay_connection url with
    | false =>
      have h1 : (add_relay_to_type cfg relay_type url).1 = cfg := by
        unfold add_relay_to_type
        simp [ht]
      rw [h1]
      unfold add_relay_to_type
      simp [ht]
    | true =>
      have hvalid : valid_relay_url url = true := by
        rw [← test_relay_connection_eq_valid]
        exact ht
      by_cases hmem : url ∈ get_relays_for_type cfg relay_type
      · have h1 : (add_relay_to_type cfg relay_type url).1 = cfg := by
          unfold add_relay_to_type
          simp [ht, hmem]
        rw [h1]
        unfold add_relay_to_type
        simp [ht, hmem]
      · have h1 : add_relay_to_type cfg relay_type url =
            update_relays cfg relay_type (get_relays_for_type cfg relay_type ++ [url]) := by
          unfold add_relay_to_type
          simp [ht, hmem]
        by_cases hall : ∀ u ∈ get_relays_for_type cfg relay_type ++ [url], valid_relay_url u = true
        · have h2 := update_relays_ok cfg relay_type
            (get_relays_for_type cfg relay_type ++ [url]) hall
          rw [h1, h2]
          have hmem2 : url ∈ get_relays_for_type
              (set_relays_for_type cfg relay_type (get_relays_for_type cfg relay_type ++ [url]))
              relay_type := by
            rw [get_set_relays_same]
            exact List.mem_append_right _ (List.mem_cons_self url [])
          unfold add_relay_to_type
          simp [ht, hmem2]
        · push_neg at hall
          rcases hall with ⟨u, hu, hne⟩
          have hv : valid_relay_url u = false := by
            cases hval : valid_relay_url u with
            | false => rfl
            | true => exact absurd hval hne
          have h2 := update_relays_err cfg relay_type
            (get_relays_for_type cfg relay_type ++ [url]) u hu hv
          rw [h1, h2.1, h1]
          exact h2.1

/-- Witness for C6: adding a relay already present in the default config is
a successful no-op. -/
theorem add_relay_to_type_idempotent_witness :
    add_relay_to_type RelayConfig.default RelayType.Nostr "wss://relay.damus.io" =
      (RelayConfig.default, Except.ok ()) :=
  (add_relay_to_type_idempotent RelayConfig.default RelayType.Nostr
    "wss://relay.damus.io").2.1 (by decide) (by decide)

theorem cleanup_unwanted_relays_eval (cfg : RelayConfig) :
    cleanup_unwanted_relays cfg =
      ({ nostr_relays :=
           cfg.nostr_relays.filter (fun url => !(unwanted_relays.contains url)),
         inbox_relays :=
           cfg.inbox_relays.filter (fun url => !(unwanted_relays.contains url)),
         key_package_relays :=
           cfg.key_package_relays.filter (fun url => !(unwanted_relays.contains url)) },
       Except.ok ()) := by
  rfl

/-- Claim C7: `cleanup_unwanted_relays` removes exactly the deny-listed
endpoints from all three role lists, keeps the remaining entries in their
relative order (the result is a sublist of the original), always succeeds,
and on the spec's example input produces the example output. -/
theorem cleanup_unwanted_relays_spec (cfg : RelayConfig) :
    (cleanup_unwanted_relays cfg).2 = Except.ok ()
    ∧ (∀ relay_type, get_relays_for_type (cleanup_unwanted_relays cfg).1 relay_type =
        (get_relays_for_type cfg relay_type).filter (fun url => !(unwanted_relays.contains url)))
    ∧ (∀ relay_type, List.Sublist
        (get_relays_for_type (cleanup_unwanted_relays cfg).1 relay_type)
        (get_relays_for_type cfg relay_type))
    ∧ (∀ relay_type url, url ∈ get_relays_for_type (cleanup_unwanted_relays cfg).1 relay_type ↔
        (url ∈ get_relays_for_type cfg relay_type ∧ url ∉ unwanted_relays))
    ∧ get_relays_for_type (cleanup_unwanted_relays
        { nostr_relays := ["wss://good.example", "wss://purplepag.es", "wss://nos.lol"],
          inbox_relays := [], key_package_relays := [] }).1 RelayType.Nostr =
        ["wss://good.example", "wss://nos.lol"] := by
  refine ⟨by rw [cleanup_unwanted_relays_eval], ?_, ?_, ?_, by decide⟩
  · intro relay_type
    rw [cleanup_unwanted_relays_eval]
    cases relay_type <;> rfl
  · intro relay_type
    rw [cleanup_unwanted_relays_eval]
    cases relay_type <;> exact List.filter_sublist _
  · intro relay_type url
    rw [cleanup_unwanted_relays_eval]
    cases relay_type <;>
      simp [get_relays_for_type, List.mem_filter]

/-- Witness for C7: cleanup of the default config succeeds. -/
theorem cleanup_unwanted_relays_spec_witness :
    (cleanup_unwanted_relays RelayConfig.default).2 = Except.ok () :=
  (cleanup_unwanted_relays_spec RelayConfig.default).1

/-- Claim C8: `test_relay_connection` is a pure syntactic admissibility
check (modelled as a pure function of the string, as in the source, which
opens no network connection): it reports the URL admissible exactly when
the string parses as a URL and the scheme is ws:// or wss://, and it agrees
with the validity predicate used for relay admission. -/
theorem test_relay_connection_syntactic (url : String) :
    (test_relay_connection url = true ↔ (urlParseOk url = true ∧ wsScheme url = true))
    ∧ test_relay_connection url = valid_relay_url url := by
  constructor
  · rw [test_relay_connection_eq_valid]
    unfold valid_relay_url
    constructor
    · intro h
      exact ⟨(Bool.and_eq_true _ _ |>.mp h).1, (Bool.and_eq_true _ _ |>.mp h).2⟩
    · rintro ⟨h1, h2⟩
      rw [h1, h2]
      rfl
  · exact test_relay_connection_eq_valid url

/-- Witness for C8: a well-formed wss URL is reported admissible. -/
theorem test_relay_connection_syntactic_witness :
    test_relay_connection "wss://relay.damus.io" = true :=
  (test_relay_connection_syntactic "wss://relay.damus.io").1.mpr (by decide)

/-! ## Claim theorems for the batch runner -/

theorem run_batch_length {σ : Type} (dispatch : σ → BatchCommand → σ × Except String String) :
    ∀ (operations : List BatchCommand) (s : σ),
      (run_batch dispatch s operations).2.length = operations.length := by
  intro operations
  induction operations with
  | nil => intro s; rfl
  | cons op rest ih =>
    intro s
    simp [run_batch, ih]

theorem run_batch_getElem {σ : Type} (dispatch : σ → BatchCommand → σ × Except String String) :
    ∀ (operations : List BatchCommand) (s : σ) (i : Nat),
      ((run_batch dispatch s operations).2)[i]? =
        (operations[i]?).map
          (fun op => (execute_batch_operation dispatch
            (run_batch dispatch s (operations.take i)).1 op).2) := by
  intro operations
  induction operations with
  | nil => intro s i; simp [run_batch]
  | cons op rest ih =>
    intro s i
    cases i with
    | zero => simp [run_batch]
    | succ j =>
      simp only [run_batch, List.getElem?_cons_succ, List.take_succ_cons]
      exact ih _ j

/-- Claim C1: the batch loop executes the operations one at a time in input
order and returns exactly one result per operation, in the same order:
entry i is exactly the captured outcome of running operation i in the state
reached after operations 0..i-1, so a failure at any position neither
removes, reorders, nor alters the entries at other positions, and no
operation after a failure is skipped. -/
theorem run_batch_results_align {σ : Type}
    (dispatch : σ → BatchCommand → σ × Except String String)
    (s : σ) (operations : List BatchCommand) :
    (run_batch dispatch s operations).2.length = operations.length
    ∧ ∀ i : Nat, ((run_batch dispatch s operations).2)[i]? =
        (operations[i]?).map
          (fun op => (execute_batch_operation dispatch
            (run_batch dispatch s (operations.take i)).1 op).2) :=
  ⟨run_batch_length dispatch operations s, run_batch_getElem dispatch operations s⟩

/-- A concrete dispatcher for the batch witnesses: counts executed
operations in the state and fails exactly on contacts whose pubkey is the
string bad. -/
def example_dispatch : Nat → BatchCommand → Nat × Except String String :=
  fun n op =>
    match op with
    | BatchCommand.ContactAdd pubkey _ =>
      if pubkey = "bad" then (n + 1, Except.error "invalid pubkey")
      else (n + 1, Except.ok "contact added")
    | _ => (n + 1, Except.ok "done")

/-- A concrete operation list for the batch witnesses with a failure in the
middle position. -/
def example_operations : List BatchCommand :=
  [BatchCommand.ContactAdd "aa" "alice",
   BatchCommand.ContactAdd "bad" "mallory",
   BatchCommand.GroupCreate "g" none none]

/-- Witness for C1: on a 3-operation batch with a failing middle operation
the result list still has length 3. -/
theorem run_batch_results_align_witness :
    (run_batch example_dispatch 0 example_operations).2.length = example_operations.length :=
  (run_batch_results_align example_dispatch 0 example_operations).1

/-- Claim C9: once the batch file is read and parsed, the top-level result
envelope of the batch command has success = true regardless of how many
individual operations failed (their failures live only in the nested
results), and the process exit status is 0. -/
theorem handle_batch_envelope_success {σ : Type}
    (dispatch : σ → BatchCommand → σ × Except String String)
    (s : σ) (operations : List BatchCommand) :
    (handle_batch_command dispatch s (Except.ok operations)).2 =
      Except.ok (CommandResult.mkSuccess (run_batch dispatch s operations).2)
    ∧ (CommandResult.mkSuccess (run_batch dispatch s operations).2).success = true
    ∧ exit_code_of (handle_batch_command dispatch s (Except.ok operations)).2 = 0 :=
  ⟨rfl, rfl, rfl⟩

/-- Witness for C9: a batch whose every operation fails still exits with
status 0. -/
theorem handle_batch_envelope_success_witness :
    exit_code_of (handle_batch_command
      (fun (n : Nat) (_ : BatchCommand) => (n, Except.error "engine failure")) 0
      (Except.ok example_operations)).2 = 0 :=
  (handle_batch_envelope_success
    (fun (n : Nat) (_ : BatchCommand) => (n, Except.error "engine failure")) 0
    example_operations).2.2

/-! ## Claim theorems for the group resolver -/

theorem limit_messages_eq_drop (messages : List ChatMessage) (limit : Nat) :
    limit_messages messages limit = messages.drop (messages.length - limit) := by
  unfold limit_messages
  exact (List.rtake_eq_reverse_take_reverse messages limit).symm

/-- Claim C3: the history window over M fetched messages returns exactly
the chronologically last min(limit, M) entries as a suffix of the engine
list, preserved in the original ascending order (not reversed); a limit of
0 yields the empty list and a limit of at least M yields all messages. -/
theorem fetch_history_last_window (w : Whitenoise) (account : Account) (group_id : String)
    (messages : List ChatMessage) (limit : Nat)
    (h : w.fetch_aggregated_messages_for_group account group_id = Except.ok messages) :
    fetch_history w account group_id limit =
      Except.ok (messages.drop (messages.length - limit))
    ∧ (limit_messages messages limit).length = min limit messages.length
    ∧ fetch_history w account group_id 0 = Except.ok []
    ∧ (messages.length ≤ limit →
        fetch_history w account group_id limit = Except.ok messages) := by
  have heval : ∀ k, fetch_history w account group_id k =
      Except.ok (messages.drop (messages.length - k)) := by
    intro k
    unfold fetch_history
    rw [h]
    show Except.ok (limit_messages messages k) = _
    rw [limit_messages_eq_drop]
  refine ⟨heval limit, ?_, ?_, ?_⟩
  · rw [limit_messages_eq_drop, List.length_drop]
    omega
  · rw [heval 0, Nat.sub_zero, List.drop_length]
  · intro hle
    rw [heval limit, Nat.sub_eq_zero_of_le hle, List.drop_zero]

/-- A concrete 3-message history for the C3 witness, in ascending
chronological order. -/
def example_history : List ChatMessage :=
  [{ id := "m1", pubkey := "aa", content := "one", created_at := 10, kind := 1 },
   { id := "m2", pubkey := "bb", content := "two", created_at := 20, kind := 1 },
   { id := "m3", pubkey := "aa", content := "three", created_at := 30, kind := 1 }]

/-- A concrete engine for the group-resolver witnesses. -/
def example_engine : Whitenoise :=
  { fetch_groups := fun _ => Except.ok []
    fetch_group_members := fun _ _ => Except.ok []
    fetch_relays_from := fun _ _ _ => Except.ok ["wss://fetched.example"]
    create_group := fun _ _ _ _ =>
      Except.ok { mls_group_id := "gid-created", group_type := GroupType.DirectMessage }
    fetch_aggregated_messages_for_group := fun _ _ => Except.ok example_history
    create_identity := Except.ok { pubkey := "newpub", nip65_relays := [] }
    login := fun _ => Except.ok { pubkey := "loginpub", nip65_relays := ["wss://relay.damus.io"] }
    get_account := fun _ => Except.error "account not found"
    fix_account_empty_relays := fun a => Except.ok (a, false) }

/-- A concrete account for the group-resolver witnesses. -/
def example_account : Account :=
  { pubkey := "aabbccddeeff0011", nip65_relays := ["wss://relay.damus.io"] }

/-- Witness for C3: fetching with limit 2 over the 3 stored messages yields
the 2-element chronological suffix. -/
theorem fetch_history_last_window_witness :
    fetch_history example_engine example_account "g1" 2 =
      Except.ok (example_history.drop (example_history.length - 2)) :=
  (fetch_history_last_window example_engine example_account "g1" example_history 2 rfl).1

theorem find_dm_group_scan_eq (w : Whitenoise) (account : Account) (recipient : PublicKey)
    (members_of : String → List PublicKey) :
    ∀ (groups : List Group),
      (∀ g ∈ groups, w.fetch_group_members account g.mls_group_id =
        Except.ok (members_of g.mls_group_id)) →
      find_dm_group_scan w account recipient groups =
        Except.ok ((groups.find? (fun g =>
          decide (g.group_type = GroupType.DirectMessage ∧
            (members_of g.mls_group_id).length = 2 ∧
            account.pubkey ∈ members_of g.mls_group_id ∧
            recipient ∈ members_of g.mls_group_id))).map Group.mls_group_id) := by
  intro groups
  induction groups with
  | nil => intro _; rfl
  | cons g rest ih =>
    intro hm
    have hmg := hm g (List.mem_cons_self g rest)
    have hrest := ih (fun g2 h2 => hm g2 (List.mem_cons_of_mem g h2))
    by_cases hdm : g.group_type = GroupType.DirectMessage
    · by_cases hcond : (members_of g.mls_group_id).length = 2 ∧
          account.pubkey ∈ members_of g.mls_group_id ∧
          recipient ∈ members_of g.mls_group_id
      · rw [List.find?_cons_of_pos _ (by simp [hdm, hcond])]
        simp [find_dm_group_scan, hdm, hmg, hcond]
      · rw [List.find?_cons_of_neg
          (p := fun g2 => decide (g2.group_type = GroupType.DirectMessage ∧
            (members_of g2.mls_group_id).length = 2 ∧
            account.pubkey ∈ members_of g2.mls_group_id ∧
            recipient ∈ members_of g2.mls_group_id))
          rest (by simp only [decide_eq_true_eq]; exact fun hcontra => hcond hcontra.2)]
        rw [← hrest]
        simp [find_dm_group_scan, hdm, hmg, hcond]
    · rw [List.find?_cons_of_neg
        (p := fun g2 => decide (g2.group_type = GroupType.DirectMessage ∧
          (members_of g2.mls_group_id).length = 2 ∧
          account.pubkey ∈ members_of g2.mls_group_id ∧
          recipient ∈ members_of g2.mls_group_id))
        rest (by simp only [decide_eq_true_eq]; exact fun hcontra => hdm hcontra.1)]
      rw [← hrest]
      simp [find_dm_group_scan, hdm]

/-- Claim C4: over a fixed engine-returned group list and member oracle,
`find_dm_group` returns exactly the first group in engine order whose
discriminant is DirectMessage and whose member list has exactly two entries
containing both the account and the peer, and an Ok none (not an error)
when no group matches; as a pure function of these inputs, repeated calls
agree. -/
theorem find_dm_group_first_match (w : Whitenoise) (account : Account) (recipient : PublicKey)
    (groups : List Group) (members_of : String → List PublicKey)
    (hg : w.fetch_groups account = Except.ok groups)
    (hm : ∀ g ∈ groups, w.fetch_group_members account g.mls_group_id =
      Except.ok (members_of g.mls_group_id)) :
    find_dm_group w account recipient =
      Except.ok ((groups.find? (fun g =>
        decide (g.group_type = GroupType.DirectMessage ∧
          (members_of g.mls_group_id).length = 2 ∧
          account.pubkey ∈ members_of g.mls_group_id ∧
          recipient ∈ members_of g.mls_group_id))).map Group.mls_group_id) := by
  unfold find_dm_group
  rw [hg]
  show find_dm_group_scan w account recipient groups = _
  exact find_dm_group_scan_eq w account recipient members_of groups hm

/-- A group list for the C4 witness: a multi-party group, a DirectMessage
group with the wrong membership, then the matching DirectMessage group. -/
def example_groups : List Group :=
  [{ mls_group_id := "g1", group_type := GroupType.MultiParty },
   { mls_group_id := "g2", group_type := GroupType.DirectMessage },
   { mls_group_id := "g3", group_type := GroupType.DirectMessage }]

/-- The member oracle for the C4 witness. -/
def example_members_of : String → List PublicKey :=
  fun gid =>
    if gid = "g2" then ["aabbccddeeff0011", "other", "third"]
    else if gid = "g3" then ["aabbccddeeff0011", "ffee001122334455"]
    else []

/-- A concrete engine for the C4 witness returning the example groups and
member lists. -/
def example_find_engine : Whitenoise :=
  { example_engine with
    fetch_groups := fun _ => Except.ok example_groups
    fetch_group_members := fun _ gid => Except.ok (example_members_of gid) }

/-- Witness for C4: the scan skips the multi-party group and the wrongly
sized DM group and returns the first true match. -/
theorem find_dm_group_first_match_witness :
    find_dm_group example_find_engine example_account "ffee001122334455" =
      Except.ok (some "g3") :=
  (find_dm_group_first_match example_find_engine example_account "ffee001122334455"
    example_groups example_members_of rfl (fun _ _ => rfl)).trans rfl

/-- Claim C2: when no existing DM group is found, `get_or_create_dm_group`
creates the new group with member list exactly [peer] (the creator is not
in the member list), admin list exactly [creator, peer], a display name
derived from the first 8 characters of the peer's hex identifier, and a
relay list equal to the account's cached general (nip65) list, falling
back to the engine network fetch only when that cached list is empty. -/
theorem get_or_create_dm_group_creates (w : Whitenoise) (account : Account)
    (recipient : PublicKey)
    (h : find_dm_group w account recipient = Except.ok none) :
    (∀ g : Group, account.nip65_relays ≠ [] →
      w.create_group account [recipient] [account.pubkey, recipient]
        { name := "DM with " ++ recipient.take 8
          description := "Direct message conversation"
          relays := account.nip65_relays } = Except.ok g →
      get_or_create_dm_group w account recipient = Except.ok g.mls_group_id)
    ∧ (∀ (rs : List String) (g : Group), account.nip65_relays = [] →
      w.fetch_relays_from account.nip65_relays account.pubkey RelayType.Nostr =
        Except.ok rs →
      w.create_group account [recipient] [account.pubkey, recipient]
        { name := "DM with " ++ recipient.take 8
          description := "Direct message conversation"
          relays := rs } = Except.ok g →
      get_or_create_dm_group w account recipient = Except.ok g.mls_group_id) := by
  constructor
  · intro g hne hcreate
    unfold get_or_create_dm_group
    rw [h]
    have hempty : account.nip65_relays.isEmpty = false := by
      cases hl : account.nip65_relays with
      | nil => exact absurd hl hne
      | cons a l => rfl
    simp only [hempty, Bool.false_eq_true, if_false, hcreate]
  · intro rs g hnil hfetch hcreate
    unfold get_or_create_dm_group
    rw [h]
    have hempty : account.nip65_relays.isEmpty = true := by
      rw [hnil]
      rfl
    simp only [hempty, if_true, hfetch, hcreate]

/-- Witness for C2: with no existing groups and a non-empty cached relay
list the DM group is created and its id returned. -/
theorem get_or_create_dm_group_creates_witness :
    get_or_create_dm_group example_engine example_account "ffee001122334455" =
      Except.ok "gid-created" :=
  (get_or_create_dm_group_creates example_engine example_account "ffee001122334455"
    rfl).1 { mls_group_id := "gid-created", group_type := GroupType.DirectMessage }
    (by decide) rfl

/-! ## Claim theorem for the account session -/

/-- Claim C10: creating a new identity sets it as the in-memory active
account but leaves the persisted active-account pointer unchanged, so a
later process start resumes exactly as it would have before the creation
(in particular, with no pointer on disk nothing is auto-resumed); only
login writes the pointer. -/
theorem create_identity_frame (w : Whitenoise) (m : AccountManager) (account : Account)
    (h : w.create_identity = Except.ok account) :
    (create_identity w m).1.current_account = some account
    ∧ (create_identity w m).1.storage = m.storage
    ∧ account_manager_new w (create_identity w m).1.storage = account_manager_new w m.storage
    ∧ (m.storage.current_account_pubkey = none →
        (account_manager_new w (create_identity w m).1.storage).current_account = none)
    ∧ (∀ (key : String) (account2 : Account),
        w.login key = Except.ok account2 →
        w.fix_account_empty_relays account2 = Except.ok (account2, false) →
        (login w (create_identity w m).1 key).1.storage.current_account_pubkey =
          some account2.pubkey) := by
  have hcr : create_identity w m =
      ({ m with current_account := some account }, Except.ok account) := by
    unfold create_identity
    rw [h]
  refine ⟨by rw [hcr], by rw [hcr], by rw [hcr], ?_, ?_⟩
  · intro hnone
    rw [hcr]
    show (account_manager_new w m.storage).current_account = none
    unfold account_manager_new load_current_account_pubkey
    rw [hnone]
  · intro key account2 hl hf
    unfold login
    rw [hl]
    simp [hf, save_current_account_pubkey]

/-- Witness for C10: after creating an identity over an empty pointer file,
a fresh process start restores no active account. -/
theorem create_identity_frame_witness :
    (account_manager_new example_engine
      (create_identity example_engine
        { current_account := none,
          storage := { current_account_pubkey := none } }).1.storage).current_account = none :=
  (create_identity_frame example_engine
    { current_account := none, storage := { current_account_pubkey := none } }
    { pubkey := "newpub", nip65_relays := [] } rfl).2.2.2.1 rfl

end WhitenoiseCli
